import Mathlib

/-!
Verification of the analytics core library (Rust crate lib-analytics-core).

The development shallowly embeds the crate:

* src/events.rs : the event catalog (enum AnalyticsEvent, 29 variants),
  the hand-written accessor event_type, the envelope type EnrichedEvent
  and its constructor EnrichedEvent.new, and the serde-derived JSON
  serialization (the enum carries the serde attributes tag = "type" and
  rename_all = "snake_case"; the EnrichedEvent struct derives Serialize
  with its four fields in declaration order and no flattening).
* src/client.rs : AnalyticsClient with new, track, track_if, noop, the
  background dispatcher send_loop and the transport send_batch.

Effects are made explicit parameters: the wall clock and the two
environment-variable reads of EnrichedEvent.new become arguments, the
HTTP response of a flush becomes an HttpResult argument, the tokio
select loop becomes a step function on a dispatcher state driven by a
trace of messages (an envelope arriving on the channel, or the periodic
interval ticking).  Rust Uuid values and RFC-3339 timestamps are
abstracted as strings, which is also how serde renders them.
-/

/-- JSON values, the image of serde_json serialization. -/
inductive Json where
  | null
  | bool (b : Bool)
  | num (n : Int)
  | str (s : String)
  | arr (xs : List Json)
  | obj (fields : List (String × Json))

/-- Uuid values serialize as their hyphenated string form; we abstract them
as strings. -/
abbrev Uuid := String

/-- A chrono DateTime of Utc serializes as its RFC-3339 string; we abstract
the instant as that string. -/
abbrev Timestamp := String

/-- The event catalog of src/events.rs: enum AnalyticsEvent with 29 struct
variants, fields in source declaration order. -/
inductive AnalyticsEvent where
  | AuthLoginAttempt (user_id : Option Uuid) (email : String) (success : Bool)
      (error : Option String)
  | AuthCodeVerified (user_id : Uuid) (success : Bool) (error : Option String)
  | AuthTokenRefresh (user_id : Uuid) (success : Bool) (error : Option String)
  | AuthSessionValidated (user_id : Uuid) (valid : Bool)
  | TaskCreated (task_id : Uuid) (user_id : Uuid) (project_id : Option Uuid)
      (cocoon_id : Option Uuid) (command : String)
  | TaskStarted (task_id : Uuid) (user_id : Uuid) (cocoon_id : Option Uuid)
  | TaskCompleted (task_id : Uuid) (user_id : Uuid) (duration_ms : Int) (exit_code : Int)
  | TaskFailed (task_id : Uuid) (user_id : Uuid) (duration_ms : Option Int)
      (exit_code : Option Int) (error : String)
  | TaskCancelled (task_id : Uuid) (user_id : Uuid) (duration_ms : Option Int)
  | IntegrationConnected (integration_id : Uuid) (user_id : Uuid) (provider : String)
      (project_id : Option Uuid)
  | IntegrationDisconnected (integration_id : Uuid) (user_id : Uuid) (provider : String)
      (reason : Option String)
  | IntegrationUsed (integration_id : Uuid) (user_id : Uuid) (provider : String)
      (action : String)
  | IntegrationError (integration_id : Uuid) (user_id : Uuid) (provider : String)
      (error : String)
  | OAuthFlowStarted (user_id : Uuid) (provider : String) (state : String)
  | OAuthFlowCompleted (user_id : Uuid) (provider : String) (success : Bool)
      (error : Option String)
  | WebhookReceived (integration_id : Option Uuid) (provider : String)
      (event_type : String) (delivery_id : String)
  | WebhookProcessed (integration_id : Option Uuid) (provider : String)
      (event_type : String) (delivery_id : String) (success : Bool)
      (duration_ms : Int) (error : Option String)
  | CocoonRegistered (cocoon_id : Uuid) (user_id : Uuid) (device_name : Option String)
  | CocoonConnected (cocoon_id : Uuid) (user_id : Option Uuid)
  | CocoonDisconnected (cocoon_id : Uuid) (user_id : Option Uuid) (duration_seconds : Int)
  | CocoonClaimed (cocoon_id : Uuid) (user_id : Uuid) (via_setup_token : Bool)
  | CocoonSetupTokenCreated (token_id : Uuid) (user_id : Uuid) (cocoon_name : Option String)
  | CocoonSetupTokenUsed (token_id : Uuid) (cocoon_id : Uuid) (user_id : Uuid)
  | ProjectCreated (project_id : Uuid) (user_id : Uuid) (name : String)
  | ProjectUpdated (project_id : Uuid) (user_id : Uuid)
  | ProjectDeleted (project_id : Uuid) (user_id : Uuid)
  | ApiRequest (service : String) (endpoint : String) (method : String)
      (status_code : Nat) (duration_ms : Int) (user_id : Option Uuid)
  | DatabaseQuery (service : String) (query_type : String) (duration_ms : Int)
      (rows_affected : Option Int)
  | ApplicationError (service : String) (error_type : String) (error_message : String)
      (user_id : Option Uuid) (context : Option Json)

namespace AnalyticsEvent

/-- The hand-written accessor AnalyticsEvent::event_type of src/events.rs
lines 242-274, transcribed case by case. -/
def event_type : AnalyticsEvent → String
  | AuthLoginAttempt _ _ _ _ => "auth_login_attempt"
  | AuthCodeVerified _ _ _ => "auth_code_verified"
  | AuthTokenRefresh _ _ _ => "auth_token_refresh"
  | AuthSessionValidated _ _ => "auth_session_validated"
  | TaskCreated _ _ _ _ _ => "task_created"
  | TaskStarted _ _ _ => "task_started"
  | TaskCompleted _ _ _ _ => "task_completed"
  | TaskFailed _ _ _ _ _ => "task_failed"
  | TaskCancelled _ _ _ => "task_cancelled"
  | IntegrationConnected _ _ _ _ => "integration_connected"
  | IntegrationDisconnected _ _ _ _ => "integration_disconnected"
  | IntegrationUsed _ _ _ _ => "integration_used"
  | IntegrationError _ _ _ _ => "integration_error"
  | OAuthFlowStarted _ _ _ => "oauth_flow_started"
  | OAuthFlowCompleted _ _ _ _ => "oauth_flow_completed"
  | WebhookReceived _ _ _ _ => "webhook_received"
  | WebhookProcessed _ _ _ _ _ _ _ => "webhook_processed"
  | CocoonRegistered _ _ _ => "cocoon_registered"
  | CocoonConnected _ _ => "cocoon_connected"
  | CocoonDisconnected _ _ _ => "cocoon_disconnected"
  | CocoonClaimed _ _ _ => "cocoon_claimed"
  | CocoonSetupTokenCreated _ _ _ => "cocoon_setup_token_created"
  | CocoonSetupTokenUsed _ _ _ => "cocoon_setup_token_used"
  | ProjectCreated _ _ _ => "project_created"
  | ProjectUpdated _ _ => "project_updated"
  | ProjectDeleted _ _ => "project_deleted"
  | ApiRequest _ _ _ _ _ _ => "api_request"
  | DatabaseQuery _ _ _ _ => "database_query"
  | ApplicationError _ _ _ _ _ => "application_error"

/-- The Rust identifier of the variant, exactly as declared in the enum. -/
def variantName : AnalyticsEvent → String
  | AuthLoginAttempt _ _ _ _ => "AuthLoginAttempt"
  | AuthCodeVerified _ _ _ => "AuthCodeVerified"
  | AuthTokenRefresh _ _ _ => "AuthTokenRefresh"
  | AuthSessionValidated _ _ => "AuthSessionValidated"
  | TaskCreated _ _ _ _ _ => "TaskCreated"
  | TaskStarted _ _ _ => "TaskStarted"
  | TaskCompleted _ _ _ _ => "TaskCompleted"
  | TaskFailed _ _ _ _ _ => "TaskFailed"
  | TaskCancelled _ _ _ => "TaskCancelled"
  | IntegrationConnected _ _ _ _ => "IntegrationConnected"
  | IntegrationDisconnected _ _ _ _ => "IntegrationDisconnected"
  | IntegrationUsed _ _ _ _ => "IntegrationUsed"
  | IntegrationError _ _ _ _ => "IntegrationError"
  | OAuthFlowStarted _ _ _ => "OAuthFlowStarted"
  | OAuthFlowCompleted _ _ _ _ => "OAuthFlowCompleted"
  | WebhookReceived _ _ _ _ => "WebhookReceived"
  | WebhookProcessed _ _ _ _ _ _ _ => "WebhookProcessed"
  | CocoonRegistered _ _ _ => "CocoonRegistered"
  | CocoonConnected _ _ => "CocoonConnected"
  | CocoonDisconnected _ _ _ => "CocoonDisconnected"
  | CocoonClaimed _ _ _ => "CocoonClaimed"
  | CocoonSetupTokenCreated _ _ _ => "CocoonSetupTokenCreated"
  | CocoonSetupTokenUsed _ _ _ => "CocoonSetupTokenUsed"
  | ProjectCreated _ _ _ => "ProjectCreated"
  | ProjectUpdated _ _ => "ProjectUpdated"
  | ProjectDeleted _ _ => "ProjectDeleted"
  | ApiRequest _ _ _ _ _ _ => "ApiRequest"
  | DatabaseQuery _ _ _ _ => "DatabaseQuery"
  | ApplicationError _ _ _ _ _ => "ApplicationError"

/-- True exactly on the two OAuth variants of the catalog. -/
def isOAuthVariant : AnalyticsEvent → Bool
  | OAuthFlowStarted _ _ _ => true
  | OAuthFlowCompleted _ _ _ _ => true
  | _ => false

end AnalyticsEvent

/-- The serde RenameRule SnakeCase applied by rename_all = "snake_case" to a
variant identifier: every character is lowercased, and an underscore is
inserted before each uppercase character that is not the first character. -/
def snakeCaseChars : Bool → List Char → List Char
  | _, [] => []
  | first, c :: rest =>
      (if !first && c.isUpper then ['_', c.toLower] else [c.toLower]) ++
        snakeCaseChars false rest

/-- String-level form of the serde SnakeCase rename rule. -/
def rename_all_snake_case (s : String) : String :=
  ⟨snakeCaseChars true s.data⟩

/-- serde serialization of an Option of String: None renders as null. -/
def jsonOfOptStr : Option String → Json
  | none => Json.null
  | some s => Json.str s

/-- serde serialization of an Option of an integer field: None renders as
null. -/
def jsonOfOptNum : Option Int → Json
  | none => Json.null
  | some n => Json.num n

/-- serde serialization of an Option of serde_json Value: None renders as
null, Some v as v itself. -/
def jsonOfOptVal : Option Json → Json
  | none => Json.null
  | some v => v

namespace AnalyticsEvent

/-- The field part of the serde serialization of each variant: field names
as declared (already lowercase in the source, the rename rule only touches
variant names), in declaration order. -/
def eventFields : AnalyticsEvent → List (String × Json)
  | AuthLoginAttempt user_id email success error =>
      [("user_id", jsonOfOptStr user_id), ("email", Json.str email),
       ("success", Json.bool success), ("error", jsonOfOptStr error)]
  | AuthCodeVerified user_id success error =>
      [("user_id", Json.str user_id), ("success", Json.bool success),
       ("error", jsonOfOptStr error)]
  | AuthTokenRefresh user_id success error =>
      [("user_id", Json.str user_id), ("success", Json.bool success),
       ("error", jsonOfOptStr error)]
  | AuthSessionValidated user_id valid =>
      [("user_id", Json.str user_id), ("valid", Json.bool valid)]
  | TaskCreated task_id user_id project_id cocoon_id command =>
      [("task_id", Json.str task_id), ("user_id", Json.str user_id),
       ("project_id", jsonOfOptStr project_id), ("cocoon_id", jsonOfOptStr cocoon_id),
       ("command", Json.str command)]
  | TaskStarted task_id user_id cocoon_id =>
      [("task_id", Json.str task_id), ("user_id", Json.str user_id),
       ("cocoon_id", jsonOfOptStr cocoon_id)]
  | TaskCompleted task_id user_id duration_ms exit_code =>
      [("task_id", Json.str task_id), ("user_id", Json.str user_id),
       ("duration_ms", Json.num duration_ms), ("exit_code", Json.num exit_code)]
  | TaskFailed task_id user_id duration_ms exit_code error =>
      [("task_id", Json.str task_id), ("user_id", Json.str user_id),
       ("duration_ms", jsonOfOptNum duration_ms), ("exit_code", jsonOfOptNum exit_code),
       ("error", Json.str error)]
  | TaskCancelled task_id user_id duration_ms =>
      [("task_id", Json.str task_id), ("user_id", Json.str user_id),
       ("duration_ms", jsonOfOptNum duration_ms)]
  | IntegrationConnected integration_id user_id provider project_id =>
      [("integration_id", Json.str integration_id), ("user_id", Json.str user_id),
       ("provider", Json.str provider), ("project_id", jsonOfOptStr project_id)]
  | IntegrationDisconnected integration_id user_id provider reason =>
      [("integration_id", Json.str integration_id), ("user_id", Json.str user_id),
       ("provider", Json.str provider), ("reason", jsonOfOptStr reason)]
  | IntegrationUsed integration_id user_id provider action =>
      [("integration_id", Json.str integration_id), ("user_id", Json.str user_id),
       ("provider", Json.str provider), ("action", Json.str action)]
  | IntegrationError integration_id user_id provider error =>
      [("integration_id", Json.str integration_id), ("user_id", Json.str user_id),
       ("provider", Json.str provider), ("error", Json.str error)]
  | OAuthFlowStarted user_id provider state =>
      [("user_id", Json.str user_id), ("provider", Json.str provider),
       ("state", Json.str state)]
  | OAuthFlowCompleted user_id provider success error =>
      [("user_id", Json.str user_id), ("provider", Json.str provider),
       ("success", Json.bool success), ("error", jsonOfOptStr error)]
  | WebhookReceived integration_id provider event_type delivery_id =>
      [("integration_id", jsonOfOptStr integration_id), ("provider", Json.str provider),
       ("event_type", Json.str event_type), ("delivery_id", Json.str delivery_id)]
  | WebhookProcessed integration_id provider event_type delivery_id success duration_ms error =>
      [("integration_id", jsonOfOptStr integration_id), ("provider", Json.str provider),
       ("event_type", Json.str event_type), ("delivery_id", Json.str delivery_id),
       ("success", Json.bool success), ("duration_ms", Json.num duration_ms),
       ("error", jsonOfOptStr error)]
  | CocoonRegistered cocoon_id user_id device_name =>
      [("cocoon_id", Json.str cocoon_id), ("user_id", Json.str user_id),
       ("device_name", jsonOfOptStr device_name)]
  | CocoonConnected cocoon_id user_id =>
      [("cocoon_id", Json.str cocoon_id), ("user_id", jsonOfOptStr user_id)]
  | CocoonDisconnected cocoon_id user_id duration_seconds =>
      [("cocoon_id", Json.str cocoon_id), ("user_id", jsonOfOptStr user_id),
       ("duration_seconds", Json.num duration_seconds)]
  | CocoonClaimed cocoon_id user_id via_setup_token =>
      [("cocoon_id", Json.str cocoon_id), ("user_id", Json.str user_id),
       ("via_setup_token", Json.bool via_setup_token)]
  | CocoonSetupTokenCreated token_id user_id cocoon_name =>
      [("token_id", Json.str token_id), ("user_id", Json.str user_id),
       ("cocoon_name", jsonOfOptStr cocoon_name)]
  | CocoonSetupTokenUsed token_id cocoon_id user_id =>
      [("token_id", Json.str token_id), ("cocoon_id", Json.str cocoon_id),
       ("user_id", Json.str user_id)]
  | ProjectCreated project_id user_id name =>
      [("project_id", Json.str project_id), ("user_id", Json.str user_id),
       ("name", Json.str name)]
  | ProjectUpdated project_id user_id =>
      [("project_id", Json.str project_id), ("user_id", Json.str user_id)]
  | ProjectDeleted project_id user_id =>
      [("project_id", Json.str project_id), ("user_id", Json.str user_id)]
  | ApiRequest service endpoint method status_code duration_ms user_id =>
      [("service", Json.str service), ("endpoint", Json.str endpoint),
       ("method", Json.str method), ("status_code", Json.num (Int.ofNat status_code)),
       ("duration_ms", Json.num duration_ms), ("user_id", jsonOfOptStr user_id)]
  | DatabaseQuery service query_type duration_ms rows_affected =>
      [("service", Json.str service), ("query_type", Json.str query_type),
       ("duration_ms", Json.num duration_ms), ("rows_affected", jsonOfOptNum rows_affected)]
  | ApplicationError service error_type error_message user_id context =>
      [("service", Json.str service), ("error_type", Json.str error_type),
       ("error_message", Json.str error_message), ("user_id", jsonOfOptStr user_id),
       ("context", jsonOfOptVal context)]

/-- serde serialization of AnalyticsEvent under the derive attributes
tag = "type" and rename_all = "snake_case": an internally tagged object
whose first field is the "type" discriminant holding the snake-cased
variant identifier, followed by the variant fields. -/
def serializeEvent (ev : AnalyticsEvent) : Json :=
  Json.obj (("type", Json.str (rename_all_snake_case ev.variantName)) :: ev.eventFields)

end AnalyticsEvent

/-- The envelope type of src/events.rs: struct EnrichedEvent with fields in
declaration order timestamp, event, hostname, environment. -/
structure EnrichedEvent where
  timestamp : Timestamp
  event : AnalyticsEvent
  hostname : Option String
  environment : Option String

/-- EnrichedEvent::new of src/events.rs lines 330-337.  The two effects of
the Rust body, Utc::now() and std::env::var, are passed explicitly: env_var
is the process environment at the instant of the call and now is the wall
clock reading at that instant.  The body performs the two environment reads
HOSTNAME and ENVIRONMENT itself, on every call. -/
def EnrichedEvent.new (env_var : String → Option String) (now : Timestamp)
    (event : AnalyticsEvent) : EnrichedEvent where
  timestamp := now
  event := event
  hostname := env_var "HOSTNAME"
  environment := env_var "ENVIRONMENT"

/-- serde serialization of the EnrichedEvent struct: a derived Serialize
with no flatten attribute, so the four fields appear in declaration order
and the event sits whole under the key "event". -/
def serializeEnriched (e : EnrichedEvent) : Json :=
  Json.obj [("timestamp", Json.str e.timestamp),
            ("event", AnalyticsEvent.serializeEvent e.event),
            ("hostname", jsonOfOptStr e.hostname),
            ("environment", jsonOfOptStr e.environment)]

/-- Top-level keys of a JSON object, in order; empty for non-objects. -/
def jsonTopKeys : Json → List String
  | Json.obj fields => fields.map Prod.fst
  | _ => []

/-- Lookup of a string-valued field in an association list of JSON fields. -/
def lookupStrField : List (String × Json) → String → Option String
  | [], _ => none
  | (k, v) :: rest, key =>
      if k = key then
        match v with
        | Json.str s => some s
        | _ => none
      else lookupStrField rest key

/-- The string value of a top-level field of a JSON object, if present. -/
def jsonGetStr (j : Json) (key : String) : Option String :=
  match j with
  | Json.obj fields => lookupStrField fields key
  | _ => none

/-- Lookup of a top-level field of a JSON object. -/
def lookupField : List (String × Json) → String → Option Json
  | [], _ => none
  | (k, v) :: rest, key => if k = key then some v else lookupField rest key

/-- A top-level field of a JSON object, if present. -/
def jsonGetField (j : Json) (key : String) : Option Json :=
  match j with
  | Json.obj fields => lookupField fields key
  | _ => none

/-- State of the unbounded mpsc channel as seen by a sender: either the
receiver is alive and the channel holds the pending envelopes in FIFO
order, or the receiver has been dropped and the channel is closed. -/
inductive QueueState where
  | live (pending : List EnrichedEvent)
  | closed

/-- UnboundedSender::send: appends when the receiver is alive and reports
success; when the channel is closed it leaves nothing enqueued and reports
failure (the Rust call returns Err carrying the rejected message back). -/
def sender_send (q : QueueState) (e : EnrichedEvent) : QueueState × Bool :=
  match q with
  | QueueState.live pending => (QueueState.live (pending ++ [e]), true)
  | QueueState.closed => (QueueState.closed, false)

/-- The client handle of src/client.rs: the configuration it stores.  The
reqwest connection pool and the channel sender are runtime resources; the
sender side is modelled by the QueueState the track calls thread through,
and the only configuration datum is the base URL. -/
structure AnalyticsClient where
  analytics_url : String

namespace AnalyticsClient

/-- AnalyticsClient::new of src/client.rs lines 23-40: records the base URL
(and spawns the send_loop dispatcher, modelled separately by dispatch_run
starting from send_loop_init). -/
def new (analytics_url : String) : AnalyticsClient where
  analytics_url := analytics_url

/-- AnalyticsClient::noop of src/client.rs lines 60-62: literally
new("http://localhost:9999"). -/
def noop : AnalyticsClient :=
  new "http://localhost:9999"

/-- AnalyticsClient::track of src/client.rs lines 46-50: builds the
envelope with EnrichedEvent::new and hands it to the channel; the result of
the send is bound to an underscore in the source, so only the queue state
remains and nothing is returned, logged or raised to the caller. -/
def track (env_var : String → Option String) (now : Timestamp) (q : QueueState)
    (event : AnalyticsEvent) : QueueState :=
  let enriched := EnrichedEvent.new env_var now event
  (sender_send q enriched).1

/-- AnalyticsClient::track_if of src/client.rs lines 53-57. -/
def track_if (env_var : String → Option String) (now : Timestamp) (q : QueueState)
    (condition : Bool) (event : AnalyticsEvent) : QueueState :=
  if condition then track env_var now q event else q

end AnalyticsClient

/-- Outcome of the single HTTP POST attempt of a flush: a response with a
status code, or a transport-level error from reqwest. -/
inductive HttpResult where
  | ok (status : Nat)
  | err

/-- StatusCode::is_success of the http crate: the 2xx range. -/
def isSuccessStatus (status : Nat) : Bool :=
  200 ≤ status && status < 300

/-- The log lines send_batch can emit through tracing. -/
inductive LogLine where
  | sentDebug (count : Nat)
  | httpWarn (status : Nat)
  | transportWarn

/-- Result of one call to send_batch: the POST request issued if any (its
URL and JSON body), the log lines emitted, and the batch buffer as the call
leaves it. -/
structure SendBatchResult where
  request : Option (String × Json)
  log : List LogLine
  batch : List EnrichedEvent

/-- AnalyticsClient::send_batch of src/client.rs lines 99-128: early return
on an empty batch; otherwise one POST of the serialized batch to
analytics_url ++ "/events/batch", a debug line on a 2xx response and a
warning otherwise, and an unconditional clear of the buffer at the end. -/
def send_batch (resp : HttpResult) (analytics_url : String)
    (batch : List EnrichedEvent) : SendBatchResult :=
  let count := batch.length
  if count = 0 then
    { request := none, log := [], batch := batch }
  else
    let url := analytics_url ++ "/events/batch"
    let body := Json.arr (batch.map serializeEnriched)
    let log :=
      match resp with
      | HttpResult.ok status =>
          if isSuccessStatus status then [LogLine.sentDebug count]
          else [LogLine.httpWarn status]
      | HttpResult.err => [LogLine.transportWarn]
    { request := some (url, body), log := log, batch := [] }

/-- State of the send_loop dispatcher between select iterations: the batch
buffer, the ghost record of all batches handed to send_batch so far (in
order), the accumulated log, and the instant of the next scheduled interval
tick.  The tokio interval fires at its creation instant and then every 10
seconds after it; the deadline field tracks the next pending tick of that
fixed schedule. -/
structure DState where
  batch : List EnrichedEvent
  flushes : List (List EnrichedEvent)
  log : List LogLine
  deadline : Nat

/-- One outcome of the select in the send_loop body: an envelope received
from the channel, or the interval ticking. -/
inductive DispatchMsg where
  | recv (e : EnrichedEvent)
  | tick

/-- One iteration of the send_loop select of src/client.rs lines 76-94.  On
receive, push the envelope and flush when the batch length has reached 100;
on tick, flush exactly when the batch is non-empty.  Neither arm touches
the interval object, so the receive arm leaves the tick schedule as it was
and consuming a tick moves the schedule one period (10 units) forward. -/
def dispatch_step (resp : HttpResult) (analytics_url : String) (s : DState)
    (m : DispatchMsg) : DState :=
  match m with
  | DispatchMsg.recv e =>
      let batch := s.batch ++ [e]
      if batch.length ≥ 100 then
        let r := send_batch resp analytics_url batch
        { batch := r.batch, flushes := s.flushes ++ [batch],
          log := s.log ++ r.log, deadline := s.deadline }
      else
        { s with batch := batch }
  | DispatchMsg.tick =>
      if s.batch.isEmpty then
        { s with deadline := s.deadline + 10 }
      else
        let r := send_batch resp analytics_url s.batch
        { batch := r.batch, flushes := s.flushes ++ [s.batch],
          log := s.log ++ r.log, deadline := s.deadline + 10 }

/-- The dispatcher driven through a trace of select outcomes. -/
def dispatch_run (resp : HttpResult) (analytics_url : String) (s : DState) :
    List DispatchMsg → DState
  | [] => s
  | m :: rest => dispatch_run resp analytics_url (dispatch_step resp analytics_url s m) rest

/-- Dispatcher state at the top of send_loop, src/client.rs lines 70-71: an
empty batch and an interval whose first tick is due immediately (at instant
0 of the loop clock). -/
def dispatch_init : DState where
  batch := []
  flushes := []
  log := []
  deadline := 0

/-- The lone interval.tick().await before the loop, src/client.rs line 74:
it consumes the immediate first tick, so the loop never sees it; the only
state it moves is the tick schedule. -/
def skip_first_tick (s : DState) : DState :=
  { s with deadline := s.deadline + 10 }

/-- The dispatcher state the select loop actually starts from. -/
def send_loop_init : DState :=
  skip_first_tick dispatch_init

/-- The dispatcher state reached from the top of the loop after a trace of
select outcomes. -/
def reach (resp : HttpResult) (analytics_url : String) (trace : List DispatchMsg) : DState :=
  dispatch_run resp analytics_url send_loop_init trace

/-- The envelopes a trace delivers from the channel, in order. -/
def receivedEnvelopes (trace : List DispatchMsg) : List EnrichedEvent :=
  trace.filterMap fun m =>
    match m with
    | DispatchMsg.recv e => some e
    | DispatchMsg.tick => none

/-- A lowercase-with-underscores string: only lowercase letters and
underscores. -/
def is_snake_case_string (s : String) : Bool :=
  s.data.all fun c => c.isLower || c = '_'

/-- A concrete envelope used to instantiate closed statements. -/
def env0 : EnrichedEvent where
  timestamp := "2024-01-01T00:00:00Z"
  event := AnalyticsEvent.AuthSessionValidated "user-1" true
  hostname := none
  environment := none

theorem send_batch_batch_empty (resp : HttpResult) (url : String)
    (b : List EnrichedEvent) : (send_batch resp url b).batch = [] := by
  unfold send_batch
  by_cases h : b.length = 0
  · simp only [h, if_pos rfl]
    simpa using List.length_eq_zero.mp h
  · simp [h]

theorem dispatch_step_batch_lt (resp : HttpResult) (url : String) (s : DState)
    (m : DispatchMsg) (h : s.batch.length < 100) :
    (dispatch_step resp url s m).batch.length < 100 := by
  cases m with
  | recv e =>
      simp only [dispatch_step]
      split
      · simp [send_batch_batch_empty]
      · next hb =>
          simp at hb ⊢
          omega
  | tick =>
      simp only [dispatch_step]
      split
      · simpa using h
      · simp [send_batch_batch_empty]

theorem dispatch_run_batch_lt (resp : HttpResult) (url : String)
    (trace : List DispatchMsg) :
    ∀ s : DState, s.batch.length < 100 →
      (dispatch_run resp url s trace).batch.length < 100 := by
  induction trace with
  | nil => intro s h; exact h
  | cons m rest ih =>
      intro s h
      exact ih _ (dispatch_step_batch_lt resp url s m h)

theorem reach_batch_lt (resp : HttpResult) (url : String) (trace : List DispatchMsg) :
    (reach resp url trace).batch.length < 100 :=
  dispatch_run_batch_lt resp url trace send_loop_init (by simp [send_loop_init, skip_first_tick, dispatch_init])

theorem dispatch_step_conserve (resp : HttpResult) (url : String) (s : DState)
    (m : DispatchMsg) :
    (dispatch_step resp url s m).flushes.flatten ++ (dispatch_step resp url s m).batch
      = s.flushes.flatten ++ s.batch ++ receivedEnvelopes [m] := by
  cases m with
  | recv e =>
      simp only [dispatch_step]
      split
      · simp [send_batch_batch_empty, receivedEnvelopes]
      · simp [receivedEnvelopes]
  | tick =>
      simp only [dispatch_step]
      split
      · next hb => simp [receivedEnvelopes, List.isEmpty_iff.mp hb]
      · simp [send_batch_batch_empty, receivedEnvelopes]

theorem dispatch_run_conserve (resp : HttpResult) (url : String)
    (trace : List DispatchMsg) :
    ∀ s : DState,
      (dispatch_run resp url s trace).flushes.flatten ++ (dispatch_run resp url s trace).batch
        = s.flushes.flatten ++ s.batch ++ receivedEnvelopes trace := by
  induction trace with
  | nil => intro s; simp [dispatch_run, receivedEnvelopes]
  | cons m rest ih =>
      intro s
      have hstep := dispatch_step_conserve resp url s m
      calc (dispatch_run resp url s (m :: rest)).flushes.flatten
            ++ (dispatch_run resp url s (m :: rest)).batch
          = (dispatch_step resp url s m).flushes.flatten
            ++ (dispatch_step resp url s m).batch ++ receivedEnvelopes rest := by
              simpa [dispatch_run] using ih (dispatch_step resp url s m)
        _ = s.flushes.flatten ++ s.batch ++ receivedEnvelopes [m] ++ receivedEnvelopes rest := by
              rw [hstep]
        _ = s.flushes.flatten ++ s.batch ++ receivedEnvelopes (m :: rest) := by
              cases m <;> simp [receivedEnvelopes]

/-- C3: after every flush attempt, whatever the transport outcome (2xx,
non-2xx or transport error), the batch buffer is empty; and over any
dispatcher execution the flushed batches followed by the current buffer are
exactly the envelopes received, each exactly once, so no envelope of a
flushed batch is ever retransmitted and later envelopes start a new batch. -/
theorem flush_clears_batch_no_retransmission (resp : HttpResult) (url : String)
    (b : List EnrichedEvent) (trace : List DispatchMsg) :
    (send_batch resp url b).batch = [] ∧
    (reach resp url trace).flushes.flatten ++ (reach resp url trace).batch
      = receivedEnvelopes trace := by
  refine ⟨send_batch_batch_empty resp url b, ?_⟩
  have h := dispatch_run_conserve resp url trace send_loop_init
  simpa [reach, send_loop_init, skip_first_tick, dispatch_init] using h

theorem dispatch_step_flush_iff (resp : HttpResult) (url : String) (s : DState)
    (hs : s.batch.length < 100) (m : DispatchMsg) :
    (dispatch_step resp url s m).flushes.length = s.flushes.length + 1 ↔
      (∃ e, m = DispatchMsg.recv e ∧ s.batch.length + 1 = 100) ∨
      (m = DispatchMsg.tick ∧ s.batch ≠ []) := by
  cases m with
  | recv e =>
      simp only [dispatch_step]
      split
      · next hb =>
          apply iff_of_true
          · simp
          · exact Or.inl ⟨e, by trivial, by simp at hb; omega⟩
      · next hb =>
          apply iff_of_false
          · simp
          · rintro (⟨e', he, hlen⟩ | ⟨he, _⟩)
            · simp at hb
              omega
            · exact DispatchMsg.noConfusion he
  | tick =>
      simp only [dispatch_step]
      split
      · next hb =>
          apply iff_of_false
          · simp
          · rintro (⟨e', he, _⟩ | ⟨_, hne⟩)
            · exact DispatchMsg.noConfusion he
            · exact hne (List.isEmpty_iff.mp hb)
      · next hb =>
          apply iff_of_true
          · simp
          · exact Or.inr ⟨by trivial, by simpa [List.isEmpty_iff] using hb⟩

/-- C1: from any reachable state of the send_loop select loop, the next
iteration performs a flush exactly when the arriving envelope brings the
batch length to exactly 100 (the flush happens on that very iteration and
the flushed batch ends with that 100th envelope), or the periodic timer
ticks while the batch is non-empty; a tick with an empty batch leaves
batch, flush history and log untouched and only moves the tick schedule. -/
theorem send_loop_flush_iff (resp : HttpResult) (url : String)
    (trace : List DispatchMsg) (m : DispatchMsg) :
    ((dispatch_step resp url (reach resp url trace) m).flushes.length
        = (reach resp url trace).flushes.length + 1 ↔
      (∃ e, m = DispatchMsg.recv e ∧ (reach resp url trace).batch.length + 1 = 100) ∨
      (m = DispatchMsg.tick ∧ (reach resp url trace).batch ≠ [])) ∧
    (∀ e, m = DispatchMsg.recv e → (reach resp url trace).batch.length + 1 = 100 →
      (dispatch_step resp url (reach resp url trace) m).flushes
        = (reach resp url trace).flushes ++ [(reach resp url trace).batch ++ [e]]) ∧
    ((reach resp url trace).batch = [] →
      dispatch_step resp url (reach resp url trace) DispatchMsg.tick
        = { reach resp url trace with deadline := (reach resp url trace).deadline + 10 }) := by
  refine ⟨dispatch_step_flush_iff resp url _ (reach_batch_lt resp url trace) m, ?_, ?_⟩
  · intro e hm hlen
    subst hm
    simp only [dispatch_step]
    rw [if_pos (by simp; omega)]
  · intro hempty
    simp [dispatch_step, hempty]

set_option maxRecDepth 100000 in
theorem send_loop_flush_iff_witness :
    (dispatch_step HttpResult.err "http://localhost:8094"
        (reach HttpResult.err "http://localhost:8094"
          (List.replicate 99 (DispatchMsg.recv env0))) (DispatchMsg.recv env0)).flushes
      = (reach HttpResult.err "http://localhost:8094"
          (List.replicate 99 (DispatchMsg.recv env0))).flushes
        ++ [(reach HttpResult.err "http://localhost:8094"
          (List.replicate 99 (DispatchMsg.recv env0))).batch ++ [env0]] ∧
    dispatch_step HttpResult.err "http://localhost:8094"
        (reach HttpResult.err "http://localhost:8094" []) DispatchMsg.tick
      = { reach HttpResult.err "http://localhost:8094" [] with
          deadline := (reach HttpResult.err "http://localhost:8094" []).deadline + 10 } :=
  ⟨(send_loop_flush_iff HttpResult.err "http://localhost:8094"
      (List.replicate 99 (DispatchMsg.recv env0)) (DispatchMsg.recv env0)).2.1 env0 rfl (by decide),
   (send_loop_flush_iff HttpResult.err "http://localhost:8094" [] DispatchMsg.tick).2.2 rfl⟩

/-- C2: track is a total pure function of the queue state: whatever the
state of the dispatcher side, it returns a queue state and nothing else (no
error value, no log entry exists in its image).  When the receive end is
closed the constructed envelope is silently discarded and the channel is
left exactly as it was; when the channel is live the enriched envelope is
appended and nothing more happens. -/
theorem track_never_fails (env_var : String → Option String) (now : Timestamp)
    (ev : AnalyticsEvent) (pending : List EnrichedEvent) :
    AnalyticsClient.track env_var now QueueState.closed ev = QueueState.closed ∧
    AnalyticsClient.track env_var now (QueueState.live pending) ev
      = QueueState.live (pending ++ [EnrichedEvent.new env_var now ev]) :=
  ⟨rfl, rfl⟩

/-- C5: track_if with a false condition returns the queue unchanged, so the
event never enters the channel and can never reach the transport; with a
true condition it is definitionally the same call as track. -/
theorem track_if_condition (env_var : String → Option String) (now : Timestamp)
    (q : QueueState) (ev : AnalyticsEvent) :
    AnalyticsClient.track_if env_var now q false ev = q ∧
    AnalyticsClient.track_if env_var now q true ev
      = AnalyticsClient.track env_var now q ev :=
  ⟨rfl, rfl⟩

/-- C6: enrichment reads the HOSTNAME and ENVIRONMENT lookups of the
process environment passed to the very call, and stamps the clock reading
of that call; two track calls made under different environments each
produce an envelope carrying the configuration of its own call, and the
first envelope is a fixed value unaffected by the later call. -/
theorem enrichment_per_call_config (env1 env2 : String → Option String)
    (t1 t2 : Timestamp) (ev1 ev2 : AnalyticsEvent) (pending : List EnrichedEvent) :
    EnrichedEvent.new env1 t1 ev1
      = { timestamp := t1, event := ev1, hostname := env1 "HOSTNAME",
          environment := env1 "ENVIRONMENT" } ∧
    AnalyticsClient.track env2 t2
        (AnalyticsClient.track env1 t1 (QueueState.live pending) ev1) ev2
      = QueueState.live
          (pending ++ [EnrichedEvent.new env1 t1 ev1, EnrichedEvent.new env2 t2 ev2]) := by
  refine ⟨rfl, ?_⟩
  simp [AnalyticsClient.track, sender_send]

/-- C7: no arm of the select loop resets the interval: an envelope arrival,
flushing or not, leaves the pending tick instant exactly where it was, and
consuming a tick moves the schedule forward one fixed period whether or not
that tick flushed; in particular when the 100th envelope arrives while the
first tick of the loop is still due at instant 10, the size-triggered flush
happens and that tick remains due at instant 10. -/
theorem timer_schedule_unaffected_by_flush (resp : HttpResult) (url : String)
    (s : DState) (e : EnrichedEvent) (fl : List (List EnrichedEvent)) (lg : List LogLine) :
    (dispatch_step resp url s (DispatchMsg.recv e)).deadline = s.deadline ∧
    (dispatch_step resp url s DispatchMsg.tick).deadline = s.deadline + 10 ∧
    (dispatch_step resp url ⟨List.replicate 99 e, fl, lg, 10⟩ (DispatchMsg.recv e)).flushes
      = fl ++ [List.replicate 99 e ++ [e]] ∧
    (dispatch_step resp url ⟨List.replicate 99 e, fl, lg, 10⟩ (DispatchMsg.recv e)).deadline
      = 10 := by
  refine ⟨?_, ?_, ?_, ?_⟩
  · simp only [dispatch_step]
    split <;> rfl
  · simp only [dispatch_step]
    split <;> rfl
  · simp [dispatch_step]
  · simp [dispatch_step]

/-- C8: starting from the top of the loop (the immediate first interval
tick already consumed before the loop, having flushed nothing), receiving
one envelope alone flushes nothing, and receiving it and then reaching the
tick that ends the interval flushes exactly once, a batch holding exactly
that envelope, after which the buffer is empty again. -/
theorem single_event_one_timer_flush (resp : HttpResult) (url : String)
    (envl : EnrichedEvent) :
    send_loop_init.flushes = [] ∧
    (reach resp url [DispatchMsg.recv envl]).flushes = [] ∧
    (reach resp url [DispatchMsg.recv envl, DispatchMsg.tick]).flushes = [[envl]] ∧
    (reach resp url [DispatchMsg.recv envl, DispatchMsg.tick]).batch = [] :=
  ⟨rfl, rfl, rfl, rfl⟩

/-- C10: noop is literally new applied to "http://localhost:9999", so a
noop client carries that address as its configured base URL, a non-empty
batch flushed under its configuration is POSTed for real to
http://localhost:9999/events/batch, and the dispatcher treats batches and
flush decisions identically under the noop URL and any other URL. -/
theorem noop_equals_new_localhost9999 (resp : HttpResult) (e : EnrichedEvent)
    (bs : List EnrichedEvent) :
    AnalyticsClient.noop = AnalyticsClient.new "http://localhost:9999" ∧
    AnalyticsClient.noop.analytics_url = "http://localhost:9999" ∧
    (send_batch resp AnalyticsClient.noop.analytics_url (e :: bs)).request
      = some ("http://localhost:9999/events/batch",
          Json.arr ((e :: bs).map serializeEnriched)) ∧
    ∀ (url : String) (s : DState) (m : DispatchMsg),
      (dispatch_step resp AnalyticsClient.noop.analytics_url s m).batch
          = (dispatch_step resp url s m).batch ∧
      (dispatch_step resp AnalyticsClient.noop.analytics_url s m).flushes
          = (dispatch_step resp url s m).flushes := by
  refine ⟨rfl, rfl, rfl, ?_⟩
  intro url s m
  cases m with
  | recv e' =>
      simp only [dispatch_step]
      split <;> simp [send_batch_batch_empty]
  | tick =>
      simp only [dispatch_step]
      split <;> simp [send_batch_batch_empty]

/-- C4 counterexample: the serialized envelope of a concrete event has
top-level keys timestamp, event, hostname, environment only — there is no
top-level "type" field, because the derived Serialize of EnrichedEvent does
not flatten the event; the discriminant sits inside the nested "event"
object. -/
theorem envelope_type_tag_not_top_level :
    jsonTopKeys (serializeEnriched env0)
      = ["timestamp", "event", "hostname", "environment"] ∧
    jsonGetStr (serializeEnriched env0) "type" = none ∧
    ¬ ("type" ∈ jsonTopKeys (serializeEnriched env0)) ∧
    jsonGetStr (AnalyticsEvent.serializeEvent env0.event) "type"
      = some "auth_session_validated" := by
  refine ⟨rfl, rfl, by decide, rfl⟩

/-- C4 amended: for every non-empty batch the transport POSTs the JSON
array of the serialized envelopes to base_url ++ "/events/batch"; each
serialized envelope is an object with top-level fields timestamp, event,
hostname and environment (hostname and environment a string or null), the
"type" discriminant is absent at top level and instead lives inside the
nested "event" object, where it names the variant in the serde
lowercase-with-underscores form. -/
theorem batch_post_shape (resp : HttpResult) (url : String) (e : EnrichedEvent)
    (bs : List EnrichedEvent) (o : Option String) :
    (send_batch resp url (e :: bs)).request
      = some (url ++ "/events/batch", Json.arr ((e :: bs).map serializeEnriched)) ∧
    jsonTopKeys (serializeEnriched e)
      = ["timestamp", "event", "hostname", "environment"] ∧
    jsonGetStr (serializeEnriched e) "type" = none ∧
    jsonGetField (serializeEnriched e) "event"
      = some (AnalyticsEvent.serializeEvent e.event) ∧
    jsonGetStr (AnalyticsEvent.serializeEvent e.event) "type"
      = some (rename_all_snake_case e.event.variantName) ∧
    (jsonOfOptStr o = Json.null ∨ ∃ s, jsonOfOptStr o = Json.str s) := by
  refine ⟨rfl, rfl, rfl, rfl, ?_, ?_⟩
  · cases he : e.event <;> rfl
  · cases o with
    | none => exact Or.inl rfl
    | some s => exact Or.inr ⟨s, rfl⟩

/-- C9 counterexample: on OAuthFlowStarted the accessor event_type returns
"oauth_flow_started", but the serde rename rule turns the variant name
OAuthFlowStarted into "o_auth_flow_started", which is what the serialized
"type" discriminant holds; the two strings differ, so the accessor does not
always agree with the serialized tag. -/
theorem event_type_oauth_mismatch :
    AnalyticsEvent.event_type (AnalyticsEvent.OAuthFlowStarted "u" "p" "s")
      = "oauth_flow_started" ∧
    rename_all_snake_case
        (AnalyticsEvent.variantName (AnalyticsEvent.OAuthFlowStarted "u" "p" "s"))
      = "o_auth_flow_started" ∧
    jsonGetStr
        (AnalyticsEvent.serializeEvent (AnalyticsEvent.OAuthFlowStarted "u" "p" "s")) "type"
      = some "o_auth_flow_started" ∧
    AnalyticsEvent.event_type (AnalyticsEvent.OAuthFlowStarted "u" "p" "s")
      ≠ "o_auth_flow_started" := by
  refine ⟨rfl, by decide, by decide, by decide⟩

theorem oauth_started_tag_ne :
    ¬ (("oauth_flow_started" : String) = "o_auth_flow_started") := by decide

theorem oauth_completed_tag_ne :
    ¬ (("oauth_flow_completed" : String) = "o_auth_flow_completed") := by decide

/-- C9 amended: event_type is total over the 29 variants and always yields
a lowercase-with-underscores string; the serialized "type" discriminant is
always the serde snake-casing of the variant identifier, and event_type
coincides with it exactly on the 27 non-OAuth variants — on OAuthFlowStarted
and OAuthFlowCompleted the serde tag keeps an underscore after the leading
letter o while event_type fuses it. -/
theorem event_type_total_snake_tags (ev : AnalyticsEvent) :
    is_snake_case_string (AnalyticsEvent.event_type ev) = true ∧
    jsonGetStr (AnalyticsEvent.serializeEvent ev) "type"
      = some (rename_all_snake_case ev.variantName) ∧
    (AnalyticsEvent.event_type ev = rename_all_snake_case ev.variantName
      ↔ ev.isOAuthVariant = false) := by
  cases ev <;>
    first
      | exact ⟨rfl, rfl, iff_of_true rfl rfl⟩
      | exact ⟨rfl, rfl,
          iff_of_false (fun h => absurd h oauth_started_tag_ne)
            (fun h => Bool.noConfusion h)⟩
      | exact ⟨rfl, rfl,
          iff_of_false (fun h => absurd h oauth_completed_tag_ne)
            (fun h => Bool.noConfusion h)⟩
